import Mathlib

set_option maxHeartbeats 1600000

/-!
Verification of the Fluent live-session hook.

This file is a shallow embedding of the session lifecycle and audio pipeline
implemented in src/hooks/useGeminiLive.ts (the consolidated draft with the
session-epoch guard, i.e. the second draft in that file: the one that declares
sessionIdRef and checks it inside every asynchronous callback).  JS numbers are
modelled as rationals, Date.now values and object handles as naturals, and the
mutable refs and React state of the hook as one explicit state record.  Each
asynchronous callback becomes a pure function from the state (plus the inputs
the browser would deliver) to the new state and a list of observable effects;
the suspension points of the onopen callback (the handshake delay and the
getUserMedia permission prompt) split it into two continuation stages, each of
which receives the state as it stands when the continuation resumes.
-/

namespace Fluent

/-- Connection lifecycle states, from src/types.ts. -/
inductive ConnectionState
  | DISCONNECTED
  | CONNECTING
  | CONNECTED
  | ERROR
deriving DecidableEq, Repr

/-- Log entry roles, from the LogMessage interface in src/types.ts. -/
inductive Role
  | user
  | model
  | system
deriving DecidableEq, Repr

/-- A committed log entry (LogMessage in src/types.ts); the timestamp is the
Date value as a natural number. -/
structure LogMessage where
  role : Role
  text : String
  timestamp : Nat
deriving DecidableEq, Repr

/-- Observable side effects of the hook: UI log emissions, playback actions,
resource acquisition and release, outbound audio, alerts and storage writes. -/
inductive Effect
  | logEmit (role : Role) (text : String)
  | playbackStart (handle : Nat) (start : ℚ)
  | playbackStop (handle : Nat)
  | trackStop (track : Nat)
  | micRequest
  | wakeLockAcquire
  | wakeLockRelease
  | sessionClose
  | nodeDisconnect (handle : Nat)
  | ctxClose
  | alert (code : Option Nat) (reason : Option String)
  | sendAudio (samples : List ℚ)
  | storageSet (logs : List LogMessage)
  | storageRemove
  | transportOpen
deriving DecidableEq, Repr

/-- Storage writes among the effects: localStorage.setItem and removeItem. -/
def Effect.isStorageWrite : Effect → Bool
  | Effect.storageSet _ => true
  | Effect.storageRemove => true
  | _ => false

/-- The mutable state of one instance of the useGeminiLive hook: the React
state cells (connectionState, logs, analyser, volume) and the refs
(isConnectedRef, sessionIdRef, audioContextRef, audioSourceRef,
processorNodeRef, analyserRef, streamRef, sessionRef, wakeLockRef,
nextStartTimeRef, sourcesRef, currentInputRef, currentOutputRef).  A media
stream is identified with the list of its track handles; the volume cell
stores the squared root-mean-square (Math.sqrt is strictly monotone and no
claim depends on the numeric value, only on whether it is written). -/
structure HookState where
  connectionState : ConnectionState
  isConnected : Bool
  sessionId : Nat
  logs : List LogMessage
  audioContext : Option Nat
  audioSource : Option Nat
  processorNode : Option Nat
  analyserNodeRef : Option Nat
  stream : Option (List Nat)
  session : Option Nat
  wakeLock : Option Nat
  analyser : Option Nat
  volume : ℚ
  nextStartTime : ℚ
  sources : List Nat
  currentInput : String
  currentOutput : String
deriving DecidableEq, Repr

/-- Whitespace test used by String.prototype.trim for the characters that can
occur here (space, tab, line feed, carriage return). -/
def isSpaceChar (c : Char) : Bool :=
  c == ' ' || c == '\t' || c == '\n' || c == '\r'

/-- Models String.prototype.trim: drops whitespace from both ends. -/
def trimString (t : String) : String :=
  String.mk (((t.data.dropWhile isSpaceChar).reverse.dropWhile isSpaceChar).reverse)

/-- Mirrors addLog (the setLogs updater): appends the entry and keeps only the
most recent 50 entries (Array.prototype.slice with argument -50); also emits
the entry as a log-emission effect. -/
def addLog (s : HookState) (role : Role) (text : String) (now : Nat) :
    HookState × List Effect :=
  let l := s.logs ++ [⟨role, text, now⟩]
  ({ s with logs := l.drop (l.length - 50) }, [Effect.logEmit role text])

/-- Mirrors the localStorage persistence effect of the hook: whenever the logs
state changes, the whole list is written under the fixed storage key. -/
def logsPersistenceEffect (logs : List LogMessage) : List Effect :=
  [Effect.storageSet logs]

/-- Mirrors clearLogs: resets the logs state and removes the stored history. -/
def clearLogs (s : HookState) : HookState × List Effect :=
  ({ s with logs := [] }, [Effect.storageRemove])

/-- Mirrors downsampleBuffer: nearest-neighbour resampling.  When the rates
are equal the input is returned unchanged; otherwise the output has length
the ceiling of inputLength divided by the rate ratio, entry i is the input
sample at the floor of i times the ratio, and indices whose source offset is
out of range keep the zero the result array was initialised with. -/
def downsampleBuffer (buffer : List ℚ) (inputRate outputRate : ℚ) : List ℚ :=
  if inputRate = outputRate then buffer
  else
    let r := inputRate / outputRate
    let newLength := (⌈(buffer.length : ℚ) / r⌉).toNat
    (List.range newLength).map (fun (i : Nat) =>
      let offset := (⌊(i : ℚ) * r⌋).toNat
      if offset < buffer.length then buffer.getD offset 0 else 0)

/-- Mirrors requestWakeLock: acquire-if-absent; a failed acquisition is caught
and leaves the state unchanged (the request effect still happened). -/
def requestWakeLock (s : HookState) (lockH : Nat) (fails : Bool) :
    HookState × List Effect :=
  match s.wakeLock with
  | some _ => (s, [])
  | none =>
      (if fails then s else { s with wakeLock := some lockH },
       [Effect.wakeLockAcquire])

/-- Mirrors releaseWakeLock: release-if-present inside a try block; when the
release call raises, the ref is not cleared (the assignment to null sits after
the awaited release inside the try), but the exception is swallowed. -/
def releaseWakeLock (s : HookState) (fails : Bool) : HookState × List Effect :=
  match s.wakeLock with
  | none => (s, [])
  | some _ =>
      (if fails then s else { s with wakeLock := none },
       [Effect.wakeLockRelease])

/-- Environment oracle saying which of the individually guarded release
operations of disconnect raise an exception. -/
structure ReleaseFailures where
  sessionClose : Bool
  trackStop : Bool
  sourceDisconnect : Bool
  processorDisconnect : Bool
  analyserDisconnect : Bool
  ctxClose : Bool
  wakeLockRelease : Bool
deriving DecidableEq, Repr

/-- The oracle under which every release succeeds. -/
def noFailures : ReleaseFailures :=
  ⟨false, false, false, false, false, false, false⟩

/-- One guarded release block of disconnect: the underlying operation may
raise, in which case the surrounding try/catch swallows the exception and the
completed effects of that one operation are lost. -/
def tryRelease (fails : Bool) (effects : List Effect) : List Effect :=
  match (if fails then Except.error () else Except.ok effects :
      Except Unit (List Effect)) with
  | Except.ok es => es
  | Except.error _ => []

/-- Mirrors disconnect (the consolidated draft): invalidates the epoch and the
connected flag first, then releases each resource in its own guarded block
(the ref assignment to null sits after the try/catch, so the ref is cleared
even when the release raised, except for the wake lock, whose clearing sits
inside the try), and finally resets the connection state, the analyser handle
and the volume. -/
def disconnect (s : HookState) (f : ReleaseFailures) : HookState × List Effect :=
  let s0 := { s with isConnected := false, sessionId := 0 }
  let e1 := if s0.session.isSome then tryRelease f.sessionClose [Effect.sessionClose] else []
  let s1 := { s0 with session := none }
  let e2 :=
    match s1.stream with
    | some tracks => tryRelease f.trackStop (tracks.map Effect.trackStop)
    | none => []
  let s2 := { s1 with stream := none }
  let e3 :=
    match s2.audioSource with
    | some h => tryRelease f.sourceDisconnect [Effect.nodeDisconnect h]
    | none => []
  let s3 := { s2 with audioSource := none }
  let e4 :=
    match s3.processorNode with
    | some h => tryRelease f.processorDisconnect [Effect.nodeDisconnect h]
    | none => []
  let s4 := { s3 with processorNode := none }
  let e5 :=
    match s4.analyserNodeRef with
    | some h => tryRelease f.analyserDisconnect [Effect.nodeDisconnect h]
    | none => []
  let s5 := { s4 with analyserNodeRef := none }
  let e6 := if s5.audioContext.isSome then tryRelease f.ctxClose [Effect.ctxClose] else []
  let s6 := { s5 with audioContext := none }
  let wl := releaseWakeLock s6 f.wakeLockRelease
  ({ wl.1 with connectionState := ConnectionState.DISCONNECTED,
               analyser := none, volume := 0 },
   e1 ++ e2 ++ e3 ++ e4 ++ e5 ++ e6 ++ wl.2)

/-- Mirrors one scheduling step of the playback path of onmessage: the cursor
is first pulled up to the current clock of the rendering context, the buffer
starts exactly at the resulting cursor, and the cursor advances by the
duration of the buffer.  Returns the scheduled start time and the new cursor. -/
def scheduleBuffer (cursor clock duration : ℚ) : ℚ × ℚ :=
  (max cursor clock, max cursor clock + duration)

/-- Folds scheduleBuffer over a sequence of deliveries; each delivery carries
the clock value at the moment it is processed and the duration of the decoded
buffer.  Returns the scheduled start time and duration of every buffer, in
delivery order. -/
def scheduleAll (cursor : ℚ) : List (ℚ × ℚ) → List (ℚ × ℚ)
  | [] => []
  | d :: rest =>
      let p := scheduleBuffer cursor d.1 d.2
      (p.1, d.2) :: scheduleAll p.2 rest

/-- Shape of an inbound transport message: an optional audio payload (reduced
to the duration of the decoded buffer, the only attribute the scheduler
reads), optional input and output transcription fragments, and the
turn-complete and interrupted flags. -/
structure ServerMessage where
  audioDuration : Option ℚ
  inputTranscription : Option String
  outputTranscription : Option String
  turnComplete : Bool
  interrupted : Bool
deriving DecidableEq, Repr

/-- Mirrors the audio block of onmessage: if an audio payload is present and a
rendering context exists, the buffer is scheduled via scheduleBuffer at the
cursor (pulled up to the clock first) and its playback handle recorded in the
pending set. -/
def audioStep (s : HookState) (d : Option ℚ) (clock : ℚ) (handle : Nat) :
    HookState × List Effect :=
  match d with
  | some dur =>
      if s.audioContext.isSome then
        let p := scheduleBuffer s.nextStartTime clock dur
        ({ s with nextStartTime := p.2, sources := s.sources ++ [handle] },
         [Effect.playbackStart handle p.1])
      else (s, [])
  | none => (s, [])

/-- Mirrors the transcription block of onmessage: appends the input and output
fragments, when present, to their accumulation buffers. -/
def appendTranscripts (s : HookState) (it ot : Option String) : HookState :=
  let s2 :=
    match it with
    | some t => { s with currentInput := s.currentInput ++ t }
    | none => s
  match ot with
  | some t => { s2 with currentOutput := s2.currentOutput ++ t }
  | none => s2

/-- Mirrors the turn-complete block of onmessage: each buffer whose trimmed
content is non-empty (JavaScript truthiness of the trimmed string) is flushed
as a log entry and reset; a buffer whose trimmed content is empty is left
untouched. -/
def turnCompleteStep (s : HookState) (flag : Bool) (now : Nat) :
    HookState × List Effect :=
  if flag then
    let fi :=
      if trimString s.currentInput ≠ ("") then
        let r := addLog s Role.user (trimString s.currentInput) now
        ({ r.1 with currentInput := ("") }, r.2)
      else (s, [])
    let fo :=
      if trimString fi.1.currentOutput ≠ ("") then
        let r := addLog fi.1 Role.model (trimString fi.1.currentOutput) now
        ({ r.1 with currentOutput := ("") }, r.2)
      else (fi.1, [])
    (fo.1, fi.2 ++ fo.2)
  else (s, [])

/-- Mirrors the interruption block of onmessage: stops every pending source,
clears the pending set, resets the cursor to zero and clears the output
buffer. -/
def interruptStep (s : HookState) (flag : Bool) : HookState × List Effect :=
  if flag then
    ({ s with sources := [], nextStartTime := 0, currentOutput := ("") },
     s.sources.map Effect.playbackStop)
  else (s, [])

/-- Mirrors the onmessage callback: the epoch guard comes first, then the four
blocks run in source order — audio scheduling, transcription accumulation,
turn-complete flush, interruption handling. -/
def onmessage (s : HookState) (epoch : Nat) (msg : ServerMessage) (clock : ℚ)
    (handle now : Nat) : HookState × List Effect :=
  if s.sessionId ≠ epoch then (s, [])
  else
    let a := audioStep s msg.audioDuration clock handle
    let s3 := appendTranscripts a.1 msg.inputTranscription msg.outputTranscription
    let tc := turnCompleteStep s3 msg.turnComplete now
    let ir := interruptStep tc.1 msg.interrupted
    (ir.1, a.2 ++ tc.2 ++ ir.2)

/-- Mirrors the onaudioprocess capture callback: bail out unless the connected
flag is set and the epoch is live; otherwise publish the loudness estimate
(sum of squared samples over a stride of 8, stored here as the squared RMS),
downsample when the context rate differs from the wire rate, and send the
encoded samples; a failed send is caught and only logged to the console. -/
def onaudioprocess (s : HookState) (epoch : Nat) (inputData : List ℚ)
    (ctxRate wireRate : ℚ) (sendFails : Bool) : HookState × List Effect :=
  if s.isConnected = false ∨ s.sessionId ≠ epoch then (s, [])
  else
    let strideIdx := (List.range inputData.length).filter (fun i => i % 8 = 0)
    let sumSq := (strideIdx.map (fun i => inputData.getD i 0 * inputData.getD i 0)).sum
    let s1 := { s with volume := sumSq / ((inputData.length : ℚ) / 8) }
    let processData :=
      if ctxRate ≠ wireRate then downsampleBuffer inputData ctxRate wireRate
      else inputData
    if sendFails then (s1, []) else (s1, [Effect.sendAudio processData])

/-- Mirrors the onclose callback: everything is guarded by the epoch check; a
live close shows an alert when the session was connected and the close code is
not the normal-closure code 1000, then runs disconnect. -/
def onclose (s : HookState) (epoch : Nat) (code : Option Nat)
    (reason : Option String) (f : ReleaseFailures) : HookState × List Effect :=
  if s.sessionId = epoch then
    let alerts :=
      if s.isConnected = true ∧ code ≠ some 1000 then [Effect.alert code reason]
      else []
    let d := disconnect s f
    (d.1, alerts ++ d.2)
  else (s, [])

/-- Mirrors the onerror callback: guarded by the epoch check; a live error
sets the connection state to ERROR and then runs disconnect (which itself
ends by setting the state to DISCONNECTED). -/
def onerror (s : HookState) (epoch : Nat) (f : ReleaseFailures) :
    HookState × List Effect :=
  if s.sessionId = epoch then
    disconnect { s with connectionState := ConnectionState.ERROR } f
  else (s, [])

/-- Mirrors the first stage of the onopen callback, resuming after the fixed
handshake delay: if the epoch is no longer live the continuation silently
stops (returning false: the microphone is not requested); otherwise it logs,
marks the state CONNECTED, sets the connected flag, acquires the wake lock and
requests the microphone (the trailing Boolean is true and the microphone
request effect is emitted). -/
def onopenAfterDelay (s : HookState) (epoch now lockH : Nat) (wlFails : Bool) :
    HookState × List Effect × Bool :=
  if s.sessionId ≠ epoch then (s, [], false)
  else
    let r := addLog s Role.system ("Conectado!") now
    let s2 := { r.1 with connectionState := ConnectionState.CONNECTED,
                         isConnected := true }
    let w := requestWakeLock s2 lockH wlFails
    (w.1, r.2 ++ w.2 ++ [Effect.micRequest], true)

/-- Outcome of the getUserMedia request: a stream (its list of track handles)
or a permission failure. -/
inductive MicResult
  | ok (tracks : List Nat)
  | err
deriving DecidableEq, Repr

/-- Mirrors the second stage of the onopen callback, resuming when the
getUserMedia promise settles.  On success with a stale epoch, every track of
the newly acquired stream is stopped and nothing else happens; on success with
a live epoch the stream, source node and processor node refs are wired.  On
failure the microphone-error log entry is emitted unconditionally, and
disconnect runs only when the epoch is still live. -/
def onopenAfterMic (s : HookState) (epoch : Nat) (res : MicResult)
    (srcH procH now : Nat) (f : ReleaseFailures) : HookState × List Effect :=
  match res with
  | MicResult.ok tracks =>
      if s.sessionId ≠ epoch then (s, tracks.map Effect.trackStop)
      else
        ({ s with stream := some tracks, audioSource := some srcH,
                  processorNode := some procH }, [])
  | MicResult.err =>
      let r := addLog s Role.system ("Microfone não disponível.") now
      if s.sessionId = epoch then
        let d := disconnect r.1 f
        (d.1, r.2 ++ d.2)
      else r

/-- Mirrors connect, run atomically (no concurrent callback interleaves with
its own suspension points).  The entry guard rejects any call while the
connection state is not DISCONNECTED or the connected flag is set.  The key
lookup oracle stands for the supabase secret fetch; an error or an empty key
returns the state to DISCONNECTED with a system log entry.  The second guard
in the source re-reads the closure-captured connection state, which still
holds the entry value, and the connected ref, unchanged in an atomic run, so
it passes whenever the first one did; it is modelled exactly that way.  Then a
fresh epoch (the Date value) is installed, the rendering context and analyser
are created, and the transport is opened; on transport failure the catch block
sets ERROR, logs, and runs disconnect.  The trailing Boolean reports whether a
transport open was attempted. -/
def connect (s : HookState) (keyResult : Except String String)
    (transportOk : Bool) (now ctxH anH sessH : Nat) (f : ReleaseFailures) :
    HookState × List Effect × Bool :=
  if s.connectionState ≠ ConnectionState.DISCONNECTED ∨ s.isConnected = true then
    (s, [], false)
  else
    let r1 := addLog { s with connectionState := ConnectionState.CONNECTING }
      Role.system ("Obtendo permissão de acesso...") now
    match keyResult with
    | Except.error m =>
        let r2 := addLog r1.1 Role.system (("Erro: ") ++ m) now
        ({ r2.1 with connectionState := ConnectionState.DISCONNECTED },
         r1.2 ++ r2.2, false)
    | Except.ok key =>
        if key = ("") then
          let r2 := addLog r1.1 Role.system
            ("Chave da API não configurada corretamente no sistema.") now
          ({ r2.1 with connectionState := ConnectionState.DISCONNECTED },
           r1.2 ++ r2.2, false)
        else
          if s.connectionState ≠ ConnectionState.DISCONNECTED ∨ r1.1.isConnected = true then
            (r1.1, r1.2, false)
          else
            let s2 := { r1.1 with sessionId := now }
            let r3 := addLog s2 Role.system ("Conectando...") now
            let s4 := { r3.1 with audioContext := some ctxH,
                                  analyserNodeRef := some anH,
                                  analyser := some anH }
            if transportOk then
              ({ s4 with session := some sessH },
               r1.2 ++ r3.2 ++ [Effect.transportOpen], true)
            else
              if s4.sessionId = now then
                let s5 := { s4 with connectionState := ConnectionState.ERROR }
                let r5 := addLog s5 Role.system ("Falha na conexão.") now
                let d := disconnect r5.1 f
                (d.1, r1.2 ++ r3.2 ++ [Effect.transportOpen] ++ r5.2 ++ d.2, true)
              else (s4, r1.2 ++ r3.2 ++ [Effect.transportOpen], true)

/-- A neutral concrete state: freshly mounted hook, nothing connected. -/
def baseState : HookState where
  connectionState := ConnectionState.DISCONNECTED
  isConnected := false
  sessionId := 0
  logs := []
  audioContext := none
  audioSource := none
  processorNode := none
  analyserNodeRef := none
  stream := none
  session := none
  wakeLock := none
  analyser := none
  volume := 0
  nextStartTime := 0
  sources := []
  currentInput := ("")
  currentOutput := ("")

/-! Helper lemmas shared by several claims. -/

/-- Field-by-field description of the state disconnect leaves behind, for any
combination of release failures: every ref is cleared (the wake-lock ref only
when its release did not raise), the state is DISCONNECTED, the epoch is
invalidated, and logs, cursor, pending set and transcript buffers are left
as they were. -/
theorem disconnect_fields (s : HookState) (f : ReleaseFailures) :
    (disconnect s f).1.connectionState = ConnectionState.DISCONNECTED ∧
    (disconnect s f).1.isConnected = false ∧
    (disconnect s f).1.sessionId = 0 ∧
    (disconnect s f).1.logs = s.logs ∧
    (disconnect s f).1.audioContext = none ∧
    (disconnect s f).1.audioSource = none ∧
    (disconnect s f).1.processorNode = none ∧
    (disconnect s f).1.analyserNodeRef = none ∧
    (disconnect s f).1.stream = none ∧
    (disconnect s f).1.session = none ∧
    (disconnect s f).1.wakeLock = (if f.wakeLockRelease then s.wakeLock else none) ∧
    (disconnect s f).1.analyser = none ∧
    (disconnect s f).1.volume = 0 ∧
    (disconnect s f).1.nextStartTime = s.nextStartTime ∧
    (disconnect s f).1.sources = s.sources ∧
    (disconnect s f).1.currentInput = s.currentInput ∧
    (disconnect s f).1.currentOutput = s.currentOutput := by
  cases hwl : s.wakeLock <;> cases hfw : f.wakeLockRelease <;>
    simp [disconnect, releaseWakeLock, hwl, hfw]

/-- An effect belongs to a guarded release exactly when that release did not
raise and the effect belongs to the attempted operation. -/
theorem mem_tryRelease (a : Effect) (b : Bool) (es : List Effect) :
    a ∈ tryRelease b es ↔ (b = false ∧ a ∈ es) := by
  cases b <;> simp [tryRelease]

/-- On a state whose resources are already released and whose transient fields
are already reset, disconnect is a literal no-op: the state is returned
unchanged and no effect is emitted. -/
theorem disconnect_noop (d : HookState) (f : ReleaseFailures)
    (h1 : d.connectionState = ConnectionState.DISCONNECTED)
    (h2 : d.isConnected = false) (h3 : d.sessionId = 0)
    (h4 : d.session = none) (h5 : d.stream = none) (h6 : d.audioSource = none)
    (h7 : d.processorNode = none) (h8 : d.analyserNodeRef = none)
    (h9 : d.audioContext = none) (h10 : d.wakeLock = none)
    (h11 : d.analyser = none) (h12 : d.volume = 0) :
    disconnect d f = (d, []) := by
  cases d
  simp_all [disconnect, releaseWakeLock]

/-! Claim C4. -/

/-- C4: disconnect is idempotent and its per-resource releases are isolated:
for every combination of release failures the call returns (it never
propagates an exception — each release block catches its own), leaves the
state DISCONNECTED with every ref cleared (the wake-lock ref only when its own
release did not raise, exactly as in the source, where the null assignment
sits inside the try), failure of any one release does not prevent the others
from clearing their resource, and a second disconnect on the already
disconnected state is a literal no-op that again ends DISCONNECTED. -/
theorem disconnect_idempotent_isolated (s : HookState) (f g : ReleaseFailures) :
    (disconnect s f).1.connectionState = ConnectionState.DISCONNECTED ∧
    (disconnect s f).1.isConnected = false ∧
    (disconnect s f).1.session = none ∧
    (disconnect s f).1.stream = none ∧
    (disconnect s f).1.audioSource = none ∧
    (disconnect s f).1.processorNode = none ∧
    (disconnect s f).1.analyserNodeRef = none ∧
    (disconnect s f).1.audioContext = none ∧
    (disconnect s f).1.analyser = none ∧
    (disconnect s f).1.wakeLock = (if f.wakeLockRelease then s.wakeLock else none) ∧
    (Effect.sessionClose ∈ (disconnect s f).2 ↔
      s.session.isSome = true ∧ f.sessionClose = false) ∧
    (Effect.ctxClose ∈ (disconnect s f).2 ↔
      s.audioContext.isSome = true ∧ f.ctxClose = false) ∧
    (Effect.wakeLockRelease ∈ (disconnect s f).2 ↔ s.wakeLock.isSome = true) ∧
    (disconnect (disconnect s f).1 g).1.connectionState = ConnectionState.DISCONNECTED ∧
    disconnect (disconnect s noFailures).1 g = ((disconnect s noFailures).1, []) := by
  obtain ⟨a1, a2, a3, a4, a5, a6, a7, a8, a9, a10, a11, a12, a13, a14, a15, a16, a17⟩ :=
    disconnect_fields s f
  obtain ⟨b1, b2, b3, b4, b5, b6, b7, b8, b9, b10, b11, b12, b13, b14, b15, b16, b17⟩ :=
    disconnect_fields s noFailures
  simp only [noFailures] at b11
  have hmem : (Effect.sessionClose ∈ (disconnect s f).2 ↔
      s.session.isSome = true ∧ f.sessionClose = false) ∧
      (Effect.ctxClose ∈ (disconnect s f).2 ↔
        s.audioContext.isSome = true ∧ f.ctxClose = false) ∧
      (Effect.wakeLockRelease ∈ (disconnect s f).2 ↔ s.wakeLock.isSome = true) := by
    clear a1 a2 a3 a4 a5 a6 a7 a8 a9 a10 a11 a12 a13 a14 a15 a16 a17
      b1 b2 b3 b4 b5 b6 b7 b8 b9 b10 b11 b12 b13 b14 b15 b16 b17
    rcases s with ⟨cs, ic, sid, logs, ac, asrc, pn, an, st, se, wl, ana, vol, nst, srcs, ci, co⟩
    cases se <;> cases st <;> cases asrc <;> cases pn <;> cases an <;> cases ac <;> cases wl <;>
      simp [disconnect, releaseWakeLock, mem_tryRelease, List.mem_append]
  exact ⟨a1, a2, a10, a9, a6, a7, a8, a5, a12, a11, hmem.1, hmem.2.1, hmem.2.2,
    (disconnect_fields (disconnect s f).1 g).1,
    disconnect_noop (disconnect s noFailures).1 g b1 b2 b3 b10 b9 b6 b7 b8 b5
      (by simpa using b11) b12 b13⟩

/-! Claim C2. -/

/-- C2: if disconnect is invoked during the handshake delay, the post-delay
continuation resumes on the state disconnect produced, in which the live
epoch has been invalidated (set to 0); since the epoch minted for the
continuation is nonzero, the continuation detects staleness and performs no
state mutation: it returns the state unchanged (in particular the connection
state stays DISCONNECTED, not CONNECTED), emits no effect (so no wake-lock
acquisition), and does not request the microphone (the trailing flag is
false). -/
theorem disconnect_during_handshake_stale_noop (s : HookState)
    (f : ReleaseFailures) (e now lockH : Nat) (wlFails : Bool) (he : e ≠ 0) :
    onopenAfterDelay (disconnect s f).1 e now lockH wlFails =
      ((disconnect s f).1, [], false) ∧
    (onopenAfterDelay (disconnect s f).1 e now lockH wlFails).1.connectionState =
      ConnectionState.DISCONNECTED ∧
    (onopenAfterDelay (disconnect s f).1 e now lockH wlFails).1.wakeLock =
      (disconnect s f).1.wakeLock ∧
    Effect.wakeLockAcquire ∉ (onopenAfterDelay (disconnect s f).1 e now lockH wlFails).2.1 ∧
    Effect.micRequest ∉ (onopenAfterDelay (disconnect s f).1 e now lockH wlFails).2.1 := by
  have hsid : (disconnect s f).1.sessionId = 0 := (disconnect_fields s f).2.2.1
  have hne : ¬ (disconnect s f).1.sessionId = e := by
    rw [hsid]; exact fun h => he h.symm
  have h0 : onopenAfterDelay (disconnect s f).1 e now lockH wlFails =
      ((disconnect s f).1, [], false) := by
    simp [onopenAfterDelay, hne]
  refine ⟨h0, ?_, ?_, ?_, ?_⟩ <;> rw [h0]
  · exact (disconnect_fields s f).1
  · simp
  · simp

/-- Witness for C2 at a concrete input. -/
theorem disconnect_during_handshake_stale_noop_witness :
    (5 : Nat) ≠ 0 ∧
    onopenAfterDelay (disconnect baseState noFailures).1 5 0 0 false =
      ((disconnect baseState noFailures).1, [], false) :=
  ⟨by decide,
   (disconnect_during_handshake_stale_noop baseState noFailures 5 0 0 false
      (by decide)).1⟩

/-! Claim C3. -/

/-- C3: a connect call made while the connection state is not DISCONNECTED is
a no-op: the state is returned unchanged, no effect is emitted (in particular
no log entry), and no transport open is attempted. -/
theorem connect_noop_when_not_disconnected (s : HookState)
    (keyResult : Except String String) (transportOk : Bool)
    (now ctxH anH sessH : Nat) (f : ReleaseFailures)
    (h : s.connectionState ≠ ConnectionState.DISCONNECTED) :
    connect s keyResult transportOk now ctxH anH sessH f = (s, [], false) := by
  unfold connect
  rw [if_pos (Or.inl h)]

/-- Witness for C3 at a concrete input: a call during CONNECTING. -/
theorem connect_noop_when_not_disconnected_witness :
    { baseState with connectionState := ConnectionState.CONNECTING }.connectionState ≠
      ConnectionState.DISCONNECTED ∧
    connect { baseState with connectionState := ConnectionState.CONNECTING }
      (Except.ok ("k")) true 9 0 1 2 noFailures =
      ({ baseState with connectionState := ConnectionState.CONNECTING }, [], false) :=
  ⟨by decide,
   connect_noop_when_not_disconnected
     { baseState with connectionState := ConnectionState.CONNECTING }
     (Except.ok ("k")) true 9 0 1 2 noFailures (by decide)⟩

/-! Claim C5. -/

/-- C5 counterexample: on a live epoch the error callback first sets ERROR and
then runs disconnect, which overwrites the state with DISCONNECTED, so the
state observed after the error path completes is DISCONNECTED, not ERROR as
the claim states. -/
theorem onerror_final_state_not_error :
    (onerror { baseState with
                 sessionId := 7
                 connectionState := ConnectionState.CONNECTED
                 isConnected := true
                 session := some 1 } 7 noFailures).1.connectionState =
      ConnectionState.DISCONNECTED ∧
    ConnectionState.DISCONNECTED ≠ ConnectionState.ERROR := by
  decide

/-- C5 amended: under the epoch guard, the close callback runs exactly the
disconnect teardown (same resulting state), releasing every session resource
and ending DISCONNECTED; the error callback sets ERROR and then runs the same
teardown, so the state it finally leaves is DISCONNECTED (the ERROR value is
transient and overwritten by the teardown). -/
theorem transport_close_error_teardown (s : HookState) (e : Nat)
    (code : Option Nat) (reason : Option String) (f : ReleaseFailures)
    (he : s.sessionId = e) :
    (onclose s e code reason f).1 = (disconnect s f).1 ∧
    onerror s e f = disconnect { s with connectionState := ConnectionState.ERROR } f ∧
    (onerror s e f).1.connectionState = ConnectionState.DISCONNECTED ∧
    (onclose s e code reason f).1.connectionState = ConnectionState.DISCONNECTED ∧
    (onclose s e code reason f).1.session = none ∧
    (onclose s e code reason f).1.stream = none ∧
    (onclose s e code reason f).1.audioSource = none ∧
    (onclose s e code reason f).1.processorNode = none ∧
    (onclose s e code reason f).1.analyserNodeRef = none ∧
    (onclose s e code reason f).1.audioContext = none ∧
    (onclose s e code reason f).1.wakeLock =
      (if f.wakeLockRelease then s.wakeLock else none) := by
  have hc : (onclose s e code reason f).1 = (disconnect s f).1 := by
    simp [onclose, he]
  have herr : onerror s e f =
      disconnect { s with connectionState := ConnectionState.ERROR } f := by
    simp [onerror, he]
  obtain ⟨a1, a2, a3, a4, a5, a6, a7, a8, a9, a10, a11, a12, a13, a14, a15, a16, a17⟩ :=
    disconnect_fields s f
  refine ⟨hc, herr, ?_, ?_, ?_, ?_, ?_, ?_, ?_, ?_, ?_⟩
  · rw [herr]
    exact (disconnect_fields { s with connectionState := ConnectionState.ERROR } f).1
  · rw [hc]; exact a1
  · rw [hc]; exact a10
  · rw [hc]; exact a9
  · rw [hc]; exact a6
  · rw [hc]; exact a7
  · rw [hc]; exact a8
  · rw [hc]; exact a5
  · rw [hc]; exact a11

/-- Witness for the amended C5 at a concrete input. -/
theorem transport_close_error_teardown_witness :
    { baseState with sessionId := 3, session := some 1 }.sessionId = 3 ∧
    (onclose { baseState with sessionId := 3, session := some 1 } 3
        (some 1001) none noFailures).1 =
      (disconnect { baseState with sessionId := 3, session := some 1 }
        noFailures).1 :=
  ⟨by decide,
   (transport_close_error_teardown { baseState with sessionId := 3, session := some 1 }
      3 (some 1001) none noFailures (by decide)).1⟩

/-! Claim C10. -/

/-- C10: when the microphone permission resolves under a stale epoch, the
continuation stops every track of the newly acquired stream and sets no
controller references: the state is returned untouched (stream, source node
and processor node refs in particular), and the only effects are the track
stops. -/
theorem stale_mic_acquisition_leak_free (s : HookState) (e : Nat)
    (tracks : List Nat) (srcH procH now : Nat) (f : ReleaseFailures)
    (he : s.sessionId ≠ e) :
    onopenAfterMic s e (MicResult.ok tracks) srcH procH now f =
      (s, tracks.map Effect.trackStop) ∧
    (∀ t ∈ tracks, Effect.trackStop t ∈
      (onopenAfterMic s e (MicResult.ok tracks) srcH procH now f).2) ∧
    (onopenAfterMic s e (MicResult.ok tracks) srcH procH now f).1.stream = s.stream ∧
    (onopenAfterMic s e (MicResult.ok tracks) srcH procH now f).1.audioSource =
      s.audioSource ∧
    (onopenAfterMic s e (MicResult.ok tracks) srcH procH now f).1.processorNode =
      s.processorNode := by
  have hne : ¬ s.sessionId = e := he
  have h0 : onopenAfterMic s e (MicResult.ok tracks) srcH procH now f =
      (s, tracks.map Effect.trackStop) := by
    simp [onopenAfterMic, hne]
  refine ⟨h0, ?_, ?_, ?_, ?_⟩ <;> rw [h0]
  intro t ht
  exact List.mem_map_of_mem _ ht

/-- Witness for C10 at a concrete input. -/
theorem stale_mic_acquisition_leak_free_witness :
    { baseState with sessionId := 2 }.sessionId ≠ 1 ∧
    onopenAfterMic { baseState with sessionId := 2 } 1 (MicResult.ok [4, 5])
        0 0 0 noFailures =
      ({ baseState with sessionId := 2 },
       [Effect.trackStop 4, Effect.trackStop 5]) :=
  ⟨by decide,
   (stale_mic_acquisition_leak_free { baseState with sessionId := 2 } 1 [4, 5]
      0 0 0 noFailures (by decide)).1⟩

/-! Claim C1. -/

/-- C1 counterexample: a stale microphone-failure continuation (the post-open
continuation whose getUserMedia rejected after the epoch changed) still emits
the microphone-error log entry, contradicting the claim that no stale callback
emits a log entry. -/
theorem stale_mic_failure_logs_despite_stale_epoch :
    (onopenAfterMic { baseState with sessionId := 2 } 1 MicResult.err 0 0 0
      noFailures).2 ≠ [] ∧
    Effect.logEmit Role.system ("Microfone não disponível.") ∈
      (onopenAfterMic { baseState with sessionId := 2 } 1 MicResult.err 0 0 0
        noFailures).2 := by
  decide

/-- C1 amended: once a newer epoch is live, a callback tagged with an older
epoch mutates none of the session state (connection state, transport handle,
playback cursor, pending playback set, transcript buffers) and emits no
playback side effect; every such callback is also fully silent — message,
capture, close, error and the post-delay continuation return the state
unchanged with no effects, and a stale successful microphone acquisition only
stops the fresh tracks — except the microphone-failure branch of the
post-open continuation, which emits the microphone-error log entry (and
appends it to the log list) even when stale, while still mutating no other
field. -/
theorem stale_callbacks_no_state_mutation (s : HookState) (e : Nat)
    (he : s.sessionId ≠ e) (msg : ServerMessage) (clock : ℚ)
    (handle now lockH srcH procH : Nat) (inputData : List ℚ)
    (ctxRate wireRate : ℚ) (sendFails wlFails : Bool) (code : Option Nat)
    (reason : Option String) (f : ReleaseFailures) (tracks : List Nat) :
    onmessage s e msg clock handle now = (s, []) ∧
    onaudioprocess s e inputData ctxRate wireRate sendFails = (s, []) ∧
    onclose s e code reason f = (s, []) ∧
    onerror s e f = (s, []) ∧
    onopenAfterDelay s e now lockH wlFails = (s, [], false) ∧
    onopenAfterMic s e (MicResult.ok tracks) srcH procH now f =
      (s, tracks.map Effect.trackStop) ∧
    onopenAfterMic s e MicResult.err srcH procH now f =
      addLog s Role.system ("Microfone não disponível.") now ∧
    (addLog s Role.system ("Microfone não disponível.") now).1.connectionState =
      s.connectionState ∧
    (addLog s Role.system ("Microfone não disponível.") now).1.session = s.session ∧
    (addLog s Role.system ("Microfone não disponível.") now).1.nextStartTime =
      s.nextStartTime ∧
    (addLog s Role.system ("Microfone não disponível.") now).1.sources = s.sources ∧
    (addLog s Role.system ("Microfone não disponível.") now).1.currentInput =
      s.currentInput ∧
    (addLog s Role.system ("Microfone não disponível.") now).1.currentOutput =
      s.currentOutput := by
  have hne : ¬ s.sessionId = e := he
  simp [onmessage, onaudioprocess, onclose, onerror, onopenAfterDelay,
    onopenAfterMic, addLog, hne]

/-- Witness for the amended C1 at a concrete input. -/
theorem stale_callbacks_no_state_mutation_witness :
    { baseState with sessionId := 2 }.sessionId ≠ 1 ∧
    onmessage { baseState with sessionId := 2 } 1 ⟨none, none, none, false, false⟩
      0 0 0 = ({ baseState with sessionId := 2 }, []) :=
  ⟨by decide,
   (stale_callbacks_no_state_mutation { baseState with sessionId := 2 } 1
      (by decide) ⟨none, none, none, false, false⟩ 0 0 0 0 0 0 [] 0 0 false false
      none none noFailures []).1⟩

/-! Claim C7. -/

/-- C7 counterexample: at turn completion a buffer holding only whitespace is
empty after trimming, so it produces no log entry — but it is not reset to
the empty string as the claim states: the buffer still holds the whitespace. -/
theorem whitespace_buffer_not_reset :
    (onmessage { baseState with sessionId := 1, currentInput := (" ") } 1
        ⟨none, none, none, true, false⟩ 0 0 0).1.currentInput ≠ ("") ∧
    (onmessage { baseState with sessionId := 1, currentInput := (" ") } 1
        ⟨none, none, none, true, false⟩ 0 0 0).1.currentInput = (" ") ∧
    (onmessage { baseState with sessionId := 1, currentInput := (" ") } 1
        ⟨none, none, none, true, false⟩ 0 0 0).2 = [] := by
  decide

/-- C7 amended: on a turn-complete signal each transcript buffer is flushed as
a committed log entry exactly when its trimmed content is non-empty, and a
flushed buffer is reset to the empty string; a buffer whose trimmed content is
empty produces no entry and is left unchanged (in particular a
whitespace-only buffer is not cleared). -/
theorem turn_complete_flush (s : HookState) (e : Nat) (clock : ℚ)
    (handle now : Nat) (he : s.sessionId = e) :
    (onmessage s e ⟨none, none, none, true, false⟩ clock handle now).1.currentInput =
      (if trimString s.currentInput = ("") then s.currentInput else ("")) ∧
    (onmessage s e ⟨none, none, none, true, false⟩ clock handle now).1.currentOutput =
      (if trimString s.currentOutput = ("") then s.currentOutput else ("")) ∧
    (onmessage s e ⟨none, none, none, true, false⟩ clock handle now).2 =
      (if trimString s.currentInput = ("") then []
       else [Effect.logEmit Role.user (trimString s.currentInput)]) ++
      (if trimString s.currentOutput = ("") then []
       else [Effect.logEmit Role.model (trimString s.currentOutput)]) := by
  by_cases h1 : trimString s.currentInput = ("") <;>
    by_cases h2 : trimString s.currentOutput = ("") <;>
      simp [onmessage, audioStep, appendTranscripts, turnCompleteStep,
        interruptStep, addLog, he, h1, h2]

/-- Witness for the amended C7 at a concrete input. -/
theorem turn_complete_flush_witness :
    ({ baseState with sessionId := 1, currentInput := (" hi ") } : HookState).sessionId = 1 ∧
    (onmessage { baseState with sessionId := 1, currentInput := (" hi ") } 1
        ⟨none, none, none, true, false⟩ 0 0 0).1.currentInput =
      (if trimString (" hi ") = ("") then (" hi ") else ("")) :=
  ⟨by decide,
   (turn_complete_flush { baseState with sessionId := 1, currentInput := (" hi ") }
      1 0 0 0 (by decide)).1⟩

/-! Claim C9. -/

/-- Storage classification of each effect constructor, as rewrite rules. -/
@[simp] theorem isStorageWrite_logEmit (r : Role) (t : String) :
    Effect.isStorageWrite (Effect.logEmit r t) = false := rfl

/-- Playback starts are not storage writes. -/
@[simp] theorem isStorageWrite_playbackStart (h : Nat) (q : ℚ) :
    Effect.isStorageWrite (Effect.playbackStart h q) = false := rfl

/-- Playback stops are not storage writes. -/
@[simp] theorem isStorageWrite_playbackStop (h : Nat) :
    Effect.isStorageWrite (Effect.playbackStop h) = false := rfl

/-- Track stops are not storage writes. -/
@[simp] theorem isStorageWrite_trackStop (t : Nat) :
    Effect.isStorageWrite (Effect.trackStop t) = false := rfl

/-- Microphone requests are not storage writes. -/
@[simp] theorem isStorageWrite_micRequest :
    Effect.isStorageWrite Effect.micRequest = false := rfl

/-- Wake-lock acquisitions are not storage writes. -/
@[simp] theorem isStorageWrite_wakeLockAcquire :
    Effect.isStorageWrite Effect.wakeLockAcquire = false := rfl

/-- Wake-lock releases are not storage writes. -/
@[simp] theorem isStorageWrite_wakeLockRelease :
    Effect.isStorageWrite Effect.wakeLockRelease = false := rfl

/-- Transport closes are not storage writes. -/
@[simp] theorem isStorageWrite_sessionClose :
    Effect.isStorageWrite Effect.sessionClose = false := rfl

/-- Node disconnects are not storage writes. -/
@[simp] theorem isStorageWrite_nodeDisconnect (h : Nat) :
    Effect.isStorageWrite (Effect.nodeDisconnect h) = false := rfl

/-- Context closes are not storage writes. -/
@[simp] theorem isStorageWrite_ctxClose :
    Effect.isStorageWrite Effect.ctxClose = false := rfl

/-- Alerts are not storage writes. -/
@[simp] theorem isStorageWrite_alert (c : Option Nat) (r : Option String) :
    Effect.isStorageWrite (Effect.alert c r) = false := rfl

/-- Outbound audio sends are not storage writes. -/
@[simp] theorem isStorageWrite_sendAudio (xs : List ℚ) :
    Effect.isStorageWrite (Effect.sendAudio xs) = false := rfl

/-- Transport opens are not storage writes. -/
@[simp] theorem isStorageWrite_transportOpen :
    Effect.isStorageWrite Effect.transportOpen = false := rfl

/-- Filtering storage writes out of an effect list produced by mapping a
storage-free constructor over handles yields the empty list. -/
theorem filter_storage_map (g : Nat → Effect)
    (hg : ∀ t, Effect.isStorageWrite (g t) = false) (ts : List Nat) :
    (ts.map g).filter Effect.isStorageWrite = [] := by
  induction ts with
  | nil => rfl
  | cons t ts ih => simp [hg, ih]

/-- A guarded release emits no storage write when its underlying effects hold
none. -/
theorem filter_storage_tryRelease (b : Bool) (es : List Effect)
    (h : es.filter Effect.isStorageWrite = []) :
    (tryRelease b es).filter Effect.isStorageWrite = [] := by
  cases b <;> simp [tryRelease, h]

/-- disconnect performs no storage write. -/
theorem disconnect_storage_free (s : HookState) (f : ReleaseFailures) :
    (disconnect s f).2.filter Effect.isStorageWrite = [] := by
  rcases s with ⟨cs, ic, sid, logs, ac, asrc, pn, an, st, se, wl, ana, vol, nst, srcs, ci, co⟩
  cases se <;> cases st <;> cases asrc <;> cases pn <;> cases an <;> cases ac <;> cases wl <;>
    simp [disconnect, releaseWakeLock, List.filter_append, filter_storage_tryRelease,
      filter_storage_map, Effect.isStorageWrite]

/-- Membership form of disconnect emitting no storage write. -/
theorem disconnect_storage_free_mem (s : HookState) (f : ReleaseFailures) :
    ∀ a ∈ (disconnect s f).2, Effect.isStorageWrite a = false := by
  have h := disconnect_storage_free s f
  rw [List.filter_eq_nil_iff] at h
  intro a ha
  simpa using h a ha

/-- connect performs no storage write. -/
theorem connect_storage_free (s : HookState) (keyResult : Except String String)
    (transportOk : Bool) (now ctxH anH sessH : Nat) (f : ReleaseFailures) :
    (connect s keyResult transportOk now ctxH anH sessH f).2.1.filter
      Effect.isStorageWrite = [] := by
  rcases keyResult with m | key <;>
    simp only [connect, addLog] <;>
      split_ifs <;>
        simp [List.filter_append, disconnect_storage_free,
          disconnect_storage_free_mem]

/-- The audio block performs no storage write. -/
theorem audioStep_storage_free (s : HookState) (d : Option ℚ) (clock : ℚ)
    (handle : Nat) :
    (audioStep s d clock handle).2.filter Effect.isStorageWrite = [] := by
  rcases d with _ | dur <;> simp only [audioStep] <;>
    first
      | rfl
      | (split_ifs <;> simp)

/-- The turn-complete block performs no storage write. -/
theorem turnCompleteStep_storage_free (s : HookState) (flag : Bool) (now : Nat) :
    (turnCompleteStep s flag now).2.filter Effect.isStorageWrite = [] := by
  cases flag <;> simp only [turnCompleteStep, addLog] <;> split_ifs <;>
    simp [List.filter_append]

/-- The interruption block performs no storage write. -/
theorem interruptStep_storage_free (s : HookState) (flag : Bool) :
    (interruptStep s flag).2.filter Effect.isStorageWrite = [] := by
  cases flag <;>
    simp [interruptStep, filter_storage_map]

/-- onmessage performs no storage write. -/
theorem onmessage_storage_free (s : HookState) (e : Nat) (msg : ServerMessage)
    (clock : ℚ) (handle now : Nat) :
    (onmessage s e msg clock handle now).2.filter Effect.isStorageWrite = [] := by
  by_cases hg : s.sessionId = e
  · simp [onmessage, hg, List.filter_append, audioStep_storage_free,
      turnCompleteStep_storage_free, interruptStep_storage_free]
  · simp [onmessage, hg]

/-- The remaining callbacks perform no storage write either. -/
theorem callbacks_storage_free (s : HookState) (e : Nat) (inputData : List ℚ)
    (ctxRate wireRate : ℚ) (sendFails wlFails : Bool) (code : Option Nat)
    (reason : Option String) (f : ReleaseFailures) (now lockH srcH procH : Nat)
    (res : MicResult) :
    (onaudioprocess s e inputData ctxRate wireRate sendFails).2.filter
      Effect.isStorageWrite = [] ∧
    (onclose s e code reason f).2.filter Effect.isStorageWrite = [] ∧
    (onerror s e f).2.filter Effect.isStorageWrite = [] ∧
    (onopenAfterDelay s e now lockH wlFails).2.1.filter Effect.isStorageWrite = [] ∧
    (onopenAfterMic s e res srcH procH now f).2.filter Effect.isStorageWrite = [] := by
  refine ⟨?_, ?_, ?_, ?_, ?_⟩
  · by_cases hg : s.isConnected = false ∨ s.sessionId ≠ e <;>
      cases sendFails <;> simp [onaudioprocess, hg]
  · by_cases hg : s.sessionId = e <;>
      simp only [onclose, hg] <;>
        split_ifs <;>
          simp [List.filter_append, disconnect_storage_free,
            disconnect_storage_free_mem]
  · by_cases hg : s.sessionId = e <;>
      simp [onerror, hg, disconnect_storage_free]
  · by_cases hg : s.sessionId = e <;>
      simp only [onopenAfterDelay, requestWakeLock, addLog, hg] <;>
        rcases hwl : s.wakeLock with _ | w <;> cases wlFails <;>
          simp [hg, hwl, List.filter_append]
  · rcases res with tracks | _
    · by_cases hg : s.sessionId = e <;>
        simp [onopenAfterMic, hg, filter_storage_map]
    · by_cases hg : s.sessionId = e <;>
        simp [onopenAfterMic, addLog, hg, List.filter_append,
          disconnect_storage_free, disconnect_storage_free_mem]

/-- C9 counterexample: the hook itself writes local storage — its persistence
effect writes the log list whenever it changes, and clearLogs removes the
stored history — so storage writes are performed inside the hook rather than
being left entirely to an external layer. -/
theorem hook_writes_storage :
    (logsPersistenceEffect [⟨Role.system, ("x"), 0⟩]).filter
      Effect.isStorageWrite ≠ [] ∧
    ((clearLogs baseState).2.filter Effect.isStorageWrite) ≠ [] := by
  decide

/-- C9 amended: the session-lifecycle operations themselves (connect,
disconnect, the message, capture, close and error callbacks, and both stages
of the post-open continuation) perform no local-storage write; transcript
persistence is instead done by a dedicated effect inside the same hook, which
writes the whole log list to storage whenever it changes, and clearLogs both
clears the log state and removes the stored history. -/
theorem lifecycle_ops_storage_free (s : HookState)
    (keyResult : Except String String) (transportOk : Bool)
    (now ctxH anH sessH lockH srcH procH handle e : Nat) (f : ReleaseFailures)
    (msg : ServerMessage) (clock : ℚ) (inputData : List ℚ)
    (ctxRate wireRate : ℚ) (sendFails wlFails : Bool) (code : Option Nat)
    (reason : Option String) (res : MicResult) (logs : List LogMessage) :
    (connect s keyResult transportOk now ctxH anH sessH f).2.1.filter
      Effect.isStorageWrite = [] ∧
    (disconnect s f).2.filter Effect.isStorageWrite = [] ∧
    (onmessage s e msg clock handle now).2.filter Effect.isStorageWrite = [] ∧
    (onaudioprocess s e inputData ctxRate wireRate sendFails).2.filter
      Effect.isStorageWrite = [] ∧
    (onclose s e code reason f).2.filter Effect.isStorageWrite = [] ∧
    (onerror s e f).2.filter Effect.isStorageWrite = [] ∧
    (onopenAfterDelay s e now lockH wlFails).2.1.filter Effect.isStorageWrite = [] ∧
    (onopenAfterMic s e res srcH procH now f).2.filter Effect.isStorageWrite = [] ∧
    logsPersistenceEffect logs = [Effect.storageSet logs] ∧
    (clearLogs s).2 = [Effect.storageRemove] ∧
    (clearLogs s).1.logs = [] := by
  obtain ⟨k1, k2, k3, k4, k5⟩ := callbacks_storage_free s e inputData ctxRate
    wireRate sendFails wlFails code reason f now lockH srcH procH res
  exact ⟨connect_storage_free s keyResult transportOk now ctxH anH sessH f,
    disconnect_storage_free s f, onmessage_storage_free s e msg clock handle now,
    k1, k2, k3, k4, k5, rfl, rfl, rfl⟩

/-! Claim C6. -/

/-- Unfolding of scheduleAll on a cons cell. -/
theorem scheduleAll_cons (c : ℚ) (d : ℚ × ℚ) (rest : List (ℚ × ℚ)) :
    scheduleAll c (d :: rest) =
      (max c d.1, d.2) :: scheduleAll (max c d.1 + d.2) rest := rfl

/-- scheduleAll schedules exactly one buffer per delivery. -/
theorem scheduleAll_length (c : ℚ) (l : List (ℚ × ℚ)) :
    (scheduleAll c l).length = l.length := by
  induction l generalizing c with
  | nil => rfl
  | cons d rest ih => simp [scheduleAll_cons, ih]

/-- Every scheduled start time is at least the cursor the fold started from,
provided durations are nonnegative. -/
theorem scheduleAll_cursor_le (c : ℚ) (l : List (ℚ × ℚ))
    (hd : ∀ p ∈ l, 0 ≤ p.2) :
    ∀ i, i < l.length → c ≤ ((scheduleAll c l).getD i (0, 0)).1 := by
  induction l generalizing c with
  | nil =>
      intro i hi
      simp at hi
  | cons d rest ih =>
      intro i hi
      have hd2 : ∀ p ∈ rest, 0 ≤ p.2 := fun p hp => hd p (List.mem_cons_of_mem _ hp)
      have hdd : 0 ≤ d.2 := hd d (List.mem_cons_self _ _)
      cases i with
      | zero => simp [scheduleAll_cons]
      | succ j =>
          have h1 := ih (max c d.1 + d.2) hd2 j (by simpa using hi)
          rw [scheduleAll_cons, List.getD_cons_succ]
          calc c ≤ max c d.1 := le_max_left _ _
            _ ≤ max c d.1 + d.2 := le_add_of_nonneg_right hdd
            _ ≤ _ := h1

/-- The start of each buffer after the first is the maximum of the end of its
predecessor and the clock at its own delivery. -/
theorem scheduleAll_consecutive (c : ℚ) (l : List (ℚ × ℚ)) :
    ∀ i, i + 1 < l.length →
      ((scheduleAll c l).getD (i + 1) (0, 0)).1 =
        max (((scheduleAll c l).getD i (0, 0)).1 +
             ((scheduleAll c l).getD i (0, 0)).2)
          (l.getD (i + 1) (0, 0)).1 := by
  induction l generalizing c with
  | nil =>
      intro i hi
      simp at hi
  | cons d rest ih =>
      intro i hi
      cases i with
      | zero =>
          rcases rest with _ | ⟨e, rest2⟩
          · simp at hi
          · simp [scheduleAll_cons]
      | succ j =>
          have h1 := ih (max c d.1 + d.2) j (by simpa using hi)
          simpa [scheduleAll_cons] using h1

/-- No two scheduled buffers overlap: each earlier buffer ends no later than
any later buffer starts (durations nonnegative). -/
theorem scheduleAll_no_overlap (c : ℚ) (l : List (ℚ × ℚ))
    (hd : ∀ p ∈ l, 0 ≤ p.2) :
    ∀ i j, i < j → j < l.length →
      ((scheduleAll c l).getD i (0, 0)).1 + ((scheduleAll c l).getD i (0, 0)).2 ≤
        ((scheduleAll c l).getD j (0, 0)).1 := by
  induction l generalizing c with
  | nil =>
      intro i j hij hj
      simp at hj
  | cons d rest ih =>
      intro i j hij hj
      have hd2 : ∀ p ∈ rest, 0 ≤ p.2 := fun p hp => hd p (List.mem_cons_of_mem _ hp)
      rcases j with _ | j2
      · omega
      · rcases i with _ | i2
        · have h1 := scheduleAll_cursor_le (max c d.1 + d.2) rest hd2 j2
            (by simpa using hj)
          simpa [scheduleAll_cons] using h1
        · have h1 := ih (max c d.1 + d.2) hd2 i2 j2 (by omega) (by simpa using hj)
          simpa [scheduleAll_cons] using h1

/-- C6 counterexample: two buffers of duration 1, the second delivered when
the clock has already advanced to 5 (after the first finished): its scheduled
start is 5, not the start of the first buffer plus its duration (1), so the
exact-sum law of the claim fails for late-arriving buffers. -/
theorem playback_start_not_exact_sum :
    ((scheduleAll 0 [((0 : ℚ), (1 : ℚ)), ((5 : ℚ), (1 : ℚ))]).getD 1 (0, 0)).1 ≠
      ((scheduleAll 0 [((0 : ℚ), (1 : ℚ)), ((5 : ℚ), (1 : ℚ))]).getD 0 (0, 0)).1 +
        ((scheduleAll 0 [((0 : ℚ), (1 : ℚ)), ((5 : ℚ), (1 : ℚ))]).getD 0 (0, 0)).2 := by
  norm_num [scheduleAll, scheduleBuffer]

/-- C6 amended: for a sequence of buffers delivered in order, one buffer is
scheduled per delivery, and the start of buffer k+1 equals the maximum of
(start of buffer k plus its duration) and the clock at delivery k+1; the
exact-sum law of the claim therefore holds whenever each buffer arrives no
later than the scheduled end of its predecessor, and in every case (durations
nonnegative) the start of a later buffer is at least the end of any earlier
one, so no two scheduled playback intervals overlap. -/
theorem playback_scheduling_monotone_gap_free (cursor : ℚ)
    (l : List (ℚ × ℚ)) (hd : ∀ p ∈ l, 0 ≤ p.2) :
    (scheduleAll cursor l).length = l.length ∧
    (∀ i, i + 1 < l.length →
      ((scheduleAll cursor l).getD (i + 1) (0, 0)).1 =
        max (((scheduleAll cursor l).getD i (0, 0)).1 +
             ((scheduleAll cursor l).getD i (0, 0)).2)
          (l.getD (i + 1) (0, 0)).1) ∧
    (∀ i, i + 1 < l.length →
      (l.getD (i + 1) (0, 0)).1 ≤
        ((scheduleAll cursor l).getD i (0, 0)).1 +
          ((scheduleAll cursor l).getD i (0, 0)).2 →
      ((scheduleAll cursor l).getD (i + 1) (0, 0)).1 =
        ((scheduleAll cursor l).getD i (0, 0)).1 +
          ((scheduleAll cursor l).getD i (0, 0)).2) ∧
    (∀ i j, i < j → j < l.length →
      ((scheduleAll cursor l).getD i (0, 0)).1 +
        ((scheduleAll cursor l).getD i (0, 0)).2 ≤
        ((scheduleAll cursor l).getD j (0, 0)).1) := by
  refine ⟨scheduleAll_length cursor l, scheduleAll_consecutive cursor l, ?_,
    scheduleAll_no_overlap cursor l hd⟩
  intro i hi harr
  rw [scheduleAll_consecutive cursor l i hi]
  exact max_eq_left harr

/-- Witness for the amended C6 at a concrete input. -/
theorem playback_scheduling_monotone_gap_free_witness :
    (∀ p ∈ [((0 : ℚ), (1 : ℚ)), ((1 : ℚ), (2 : ℚ))], 0 ≤ p.2) ∧
    (scheduleAll 0 [((0 : ℚ), (1 : ℚ)), ((1 : ℚ), (2 : ℚ))]).length = 2 :=
  ⟨by decide,
   (playback_scheduling_monotone_gap_free 0
      [((0 : ℚ), (1 : ℚ)), ((1 : ℚ), (2 : ℚ))] (by decide)).1⟩

/-! Claim C8. -/

/-- Ceiling of half a natural, expressed with natural division. -/
theorem ceil_half_toNat (L : Nat) : (⌈(L : ℚ) / 2⌉).toNat = (L + 1) / 2 := by
  rcases Nat.even_or_odd L with ⟨k, hk⟩ | ⟨k, hk⟩ <;> subst hk
  · have h : ((k + k : Nat) : ℚ) / 2 = (k : ℚ) := by push_cast; ring
    rw [h, Int.ceil_natCast]
    omega
  · have h : ((2 * k + 1 : Nat) : ℚ) / 2 = 1 / 2 + (k : ℚ) := by push_cast; ring
    rw [h]
    have hc : ⌈(1 / 2 : ℚ) + (k : ℚ)⌉ = ⌈(1 / 2 : ℚ)⌉ + (k : ℤ) :=
      mod_cast Int.ceil_add_nat (1 / 2 : ℚ) k
    have hhalf : ⌈(1 / 2 : ℚ)⌉ = 1 := by
      rw [Int.ceil_eq_iff]
      norm_num
    rw [hc, hhalf]
    omega

/-- Floor of a natural times two. -/
theorem floor_double_toNat (i : Nat) : (⌊(i : ℚ) * 2⌋).toNat = 2 * i := by
  have h : (i : ℚ) * 2 = ((2 * i : Nat) : ℚ) := by push_cast; ring
  rw [h, Int.floor_natCast]
  omega

/-- Length of the resampled buffer in the genuine-resampling branch. -/
theorem downsampleBuffer_length (b : List ℚ) (inR outR : ℚ) (hne : inR ≠ outR) :
    (downsampleBuffer b inR outR).length =
      (⌈(b.length : ℚ) / (inR / outR)⌉).toNat := by
  simp only [downsampleBuffer, if_neg hne, List.length_map, List.length_range]

/-- Element formula of the resampled buffer in the genuine-resampling branch. -/
theorem downsampleBuffer_get (b : List ℚ) (inR outR : ℚ) (hne : inR ≠ outR)
    (i : Nat) (hi : i < (downsampleBuffer b inR outR).length) :
    (downsampleBuffer b inR outR).get ⟨i, hi⟩ =
      if (⌊(i : ℚ) * (inR / outR)⌋).toNat < b.length
      then b.getD ((⌊(i : ℚ) * (inR / outR)⌋).toNat) 0 else 0 := by
  simp only [downsampleBuffer, if_neg hne, List.get_eq_getElem,
    List.getElem_map, List.getElem_range]

/-- C8: the identity-rate branch returns the input unchanged; the double-rate
case yields the ceiling of half the length with every element the input at
twice its index; and in general element i is the input at the floor of i
times the rate ratio, out-of-range offsets staying silent (zero). -/
theorem downsampleBuffer_spec (b : List ℚ) (inR outR : ℚ) (hout : 0 < outR) :
    downsampleBuffer b outR outR = b ∧
    (downsampleBuffer b (2 * outR) outR).length = (b.length + 1) / 2 ∧
    (∀ i (hi : i < (downsampleBuffer b (2 * outR) outR).length),
      (downsampleBuffer b (2 * outR) outR).get ⟨i, hi⟩ = b.getD (2 * i) 0) ∧
    (inR ≠ outR →
      (downsampleBuffer b inR outR).length =
        (⌈(b.length : ℚ) / (inR / outR)⌉).toNat ∧
      ∀ i (hi : i < (downsampleBuffer b inR outR).length),
        (downsampleBuffer b inR outR).get ⟨i, hi⟩ =
          if (⌊(i : ℚ) * (inR / outR)⌋).toNat < b.length
          then b.getD ((⌊(i : ℚ) * (inR / outR)⌋).toNat) 0 else 0) := by
  have hne2 : 2 * outR ≠ outR := by
    intro h
    exact hout.ne' (by linarith)
  have hr : 2 * outR / outR = 2 := by
    field_simp
  have hlen2 : (downsampleBuffer b (2 * outR) outR).length = (b.length + 1) / 2 := by
    rw [downsampleBuffer_length b _ _ hne2, hr, ceil_half_toNat]
  refine ⟨by simp [downsampleBuffer], hlen2, ?_, fun hne =>
    ⟨downsampleBuffer_length b inR outR hne, downsampleBuffer_get b inR outR hne⟩⟩
  intro i hi
  have hib : i < (b.length + 1) / 2 := by
    rw [hlen2] at hi
    exact hi
  have hrange : 2 * i < b.length := by omega
  rw [downsampleBuffer_get b _ _ hne2 i hi, hr, floor_double_toNat, if_pos hrange]

/-- Witness for C8 at a concrete input. -/
theorem downsampleBuffer_spec_witness :
    (0 : ℚ) < 1 ∧ downsampleBuffer [(3 : ℚ), 4, 5] 1 1 = [(3 : ℚ), 4, 5] :=
  ⟨by decide, (downsampleBuffer_spec [(3 : ℚ), 4, 5] 2 1 (by decide)).1⟩

end Fluent
